import Mathlib

set_option maxRecDepth 40000

/-
Verification development for the OCI GenAI access gateway audio router
(`src/app/api/routers/audio.py`).

The development shallowly embeds:
  * the `TranscriptionListener` callback class (lines 36-96) as a state
    type `ListenerState` with a transition function `listenerStep` over an
    explicit `Event` type mirroring the SDK callbacks;
  * the orchestrator `transcribe_audio_file` (lines 141-232) as a function
    `transcribeAudioFile` parameterised by a `World` describing what the
    opaque backend (the OCI realtime speech SDK) does at each suspension
    point (each `await`): which listener callbacks fire and how the
    client's `close_flag` evolves;
  * the FastAPI endpoint `transcriptions` (lines 240-314) as
    `transcriptionsEndpoint`, with Python's exception dispatch
    (`except ValueError` / `except RuntimeError` / `except Exception`)
    made explicit via a `PyExn` type.
-/

namespace OCIAudio

/-- One transcription candidate inside a `result` payload: the code reads
`transcriptions[0].get("transcription", "")` and
`transcriptions[0].get("isFinal", False)` (audio.py lines 53-54); the
dictionary lookups with defaults are modelled as total fields. -/
structure Candidate where
  transcription : String
  isFinal : Bool
deriving DecidableEq, Repr

/-- The callbacks the OCI realtime SDK can deliver to the listener
(audio.py lines 47-96).  A `result` event carries the parsed
`result["transcriptions"]` list; `resultMalformed` models a payload whose
parsing raises inside `on_result` (caught at lines 64-67, where `str(e)`
is recorded); `close` carries the SDK's error code and message. -/
inductive Event where
  | result (transcriptions : List Candidate)
  | resultMalformed (msg : String)
  | error (msg : String)
  | connect
  | connectMessage
  | ackMessage
  | networkEvent
  | close (errorCode : Nat) (errorMessage : String)
deriving DecidableEq, Repr

/-- The fields of `TranscriptionListener` (audio.py lines 39-45). -/
structure ListenerState where
  final_transcription : String
  partial_transcriptions : List String
  error_message : Option String
  connected : Bool
  done : Bool
  final_chunk : Bool
deriving DecidableEq, Repr

/-- `TranscriptionListener.__init__` (audio.py lines 39-45). -/
def initListener : ListenerState :=
  { final_transcription := ""
  , partial_transcriptions := []
  , error_message := none
  , connected := false
  , done := false
  , final_chunk := false }

/-- One callback delivery, transcribed handler by handler from
audio.py lines 47-96:
`on_result` (47-67): empty candidate list does nothing; otherwise the
first candidate is inspected; if final, its text plus a space is appended
to `final_transcription` and `done` is set only when `final_chunk` holds;
if not final, the text is appended to `partial_transcriptions`; a parsing
exception records `str(e)` and sets `done`.
`on_error` (69-73): overwrites `error_message`, sets `done`.
`on_connect` / `on_connect_message` (75-83): set `connected`.
`on_ack_message` / `on_network_event` (85-91): no-ops.
`on_close` (93-96): sets `done`. -/
def listenerStep (s : ListenerState) (e : Event) : ListenerState :=
  match e with
  | .result ts =>
    match ts with
    | [] => s
    | c :: _ =>
      if c.isFinal then
        { s with final_transcription := s.final_transcription ++ c.transcription ++ " "
               , done := if s.final_chunk then true else s.done }
      else
        { s with partial_transcriptions := s.partial_transcriptions ++ [c.transcription] }
  | .resultMalformed m => { s with error_message := some m, done := true }
  | .error m => { s with error_message := some m, done := true }
  | .connect => { s with connected := true }
  | .connectMessage => { s with connected := true }
  | .ackMessage => s
  | .networkEvent => s
  | .close _ _ => { s with done := true }

/-- Deliver a batch of events to the listener in order. -/
def deliver (s : ListenerState) (evs : List Event) : ListenerState :=
  evs.foldl listenerStep s

/-- Run a fresh listener over a sequence of delivered events. -/
def runListener (evs : List Event) : ListenerState :=
  deliver initListener evs

/-- A well-formed `result` payload (one whose parsing does not raise). -/
def isWellFormedResult : Event → Bool
  | .result _ => true
  | _ => false

/-- A result event whose first candidate is marked not final. -/
def isNonFinalResult : Event → Bool
  | .result (c :: _) => !c.isFinal
  | _ => false

/-- The text of the first candidate of a final result event, if any. -/
def firstFinalText : Event → Option String
  | .result (c :: _) => if c.isFinal then some c.transcription else none
  | _ => none

/-- The contribution of one event to `final_transcription`: the first
candidate's text followed by one space for a final result event, nothing
otherwise. -/
def finalContrib (e : Event) : String :=
  match firstFinalText e with
  | some t => t ++ " "
  | none => ""

/-- Concatenation, in arrival order, of the first candidate's text from
each final result event, each text followed by a single space. -/
def finalAccum : List Event → String
  | [] => ""
  | e :: rest => finalContrib e ++ finalAccum rest

/-- The error message an event records, if any: `on_error` records
`str(error)`; a malformed result payload records the caught `str(e)`. -/
def errOf : Event → Option String
  | .resultMalformed m => some m
  | .error m => some m
  | _ => none

/-- The message of the most recent error-recording event of a sequence
(`none` when no event recorded an error). -/
def mostRecentError (evs : List Event) : Option String :=
  evs.foldl (fun acc e => match errOf e with | some m => some m | none => acc) none

/-- Events whose handlers mark the session terminal in the claim's sense:
`on_error` and `on_close`. -/
def isTerminalEvent : Event → Bool
  | .error _ => true
  | .close _ _ => true
  | _ => false

/-- Events whose handlers never touch `final_transcription`,
`partial_transcriptions` or `error_message`: connect, connect-message,
ack, network and close callbacks. -/
def isPassiveEvent : Event → Bool
  | .connect => true
  | .connectMessage => true
  | .ackMessage => true
  | .networkEvent => true
  | .close _ _ => true
  | _ => false

/-- Events that can never set `done` while `final_chunk` is false:
everything except `on_error`, `on_close`, and a malformed result payload. -/
def benignEvent : Event → Bool
  | .result _ => true
  | .connect => true
  | .connectMessage => true
  | .ackMessage => true
  | .networkEvent => true
  | _ => false

/-
Orchestrator embedding: `transcribe_audio_file` (audio.py lines 141-232).

The backend SDK (`RealtimeSpeechClient`) is opaque; its observable
behaviour during one run is captured by a `World`:
  * `delivered t` is the batch of listener callbacks the SDK fires during
    the t-th suspension point of the orchestrator (each `await`), in
    order;
  * `closeFlag t` is the value of `client.close_flag` as read after t
    suspensions have happened;
  * `authResult` is the outcome of `get_authenticator()` (audio.py lines
    99-123): `.ok` when a signer is obtained, `.error m` when both
    credential paths fail and `RuntimeError(m)` is raised;
  * `sendFails i` says whether `await client.send_data(chunk)` raises on
    the i-th chunk;
  * `finalResultFails` says whether `await client.request_final_result()`
    raises.
Exceptions propagated out of the connect task at the
`asyncio.wait_for(connect_task, 1.0)` join (other than the swallowed
`asyncio.TimeoutError`) are outside this model's scope.
-/

/-- Environment of one `transcribe_audio_file` run: what the opaque OCI
realtime speech client does at each suspension point. -/
structure World where
  delivered : Nat → List Event
  closeFlag : Nat → Bool
  authResult : Except String Unit
  sendFails : Nat → Bool
  finalResultFails : Bool

/-- How one `transcribe_audio_file` call ended.  There is deliberately no
timeout constructor: the source has no code path that raises on the
completion-poll ceiling. -/
inductive Outcome where
  | ok (text : String)
  | valueError (msg : String)
  | authError (msg : String)
  | sendError
  | finalRequestError
  | transcriptionError (msg : String)
deriving DecidableEq, Repr

/-- Observable record of one `transcribe_audio_file` call: its outcome,
how many times `client.close()` ran, which setup stages were reached,
how many completion-poll iterations slept, and the listener state at
exit. -/
structure OrchTrace where
  outcome : Outcome
  closeCount : Nat
  authCalled : Bool
  clientConstructed : Bool
  connectCalled : Bool
  pollIters : Nat
  finalState : ListenerState
deriving DecidableEq, Repr

/-- Python truthiness of an `Optional[str]`: `None` and `""` are falsy
(`if not compartment_id`, audio.py line 160; `if not language`, line 274). -/
def pyFalsyStr : Option String → Bool
  | none => true
  | some s => s == ""

/-- Python truthiness of `listener.error_message` (audio.py line 225):
`None` and `""` are falsy, any other string is truthy. -/
def pyTruthyOptStr : Option String → Bool
  | none => false
  | some s => !(s == "")

/-- Python `a or b` on strings (audio.py line 228). -/
def pyOrStr (a b : String) : String :=
  if a == "" then b else a

/-- Number of non-empty 64 KB reads `io.BytesIO(audio_data).read(65536)`
yields (audio.py lines 193-197). -/
def numChunks (audioLen : Nat) : Nat :=
  (audioLen + 65535) / 65536

/-- The connection-establishment poll (audio.py lines 188-189):
`while not listener.connected and not client.close_flag: await sleep(0.1)`.
The loop has no bound in the source; `fuel` caps how many sleeps the
model unrolls, `none` meaning the loop is still spinning (the call never
returns — not an exit path). -/
def connWait (w : World) (fuel : Nat) (s : ListenerState) (t : Nat) :
    Option (ListenerState × Nat) :=
  if s.connected || w.closeFlag t then some (s, t)
  else
    match fuel with
    | 0 => none
    | fuel' + 1 => connWait w fuel' (deliver s (w.delivered t)) (t + 1)

/-- How the chunk-streaming loop (audio.py lines 196-202) ended: either
`send_data` raised, or the loop exited (by `done`, by `close_flag`, or by
exhausting the audio buffer). -/
inductive ChunkExit where
  | sendRaised (s : ListenerState) (t : Nat)
  | finished (s : ListenerState) (t : Nat)
deriving Repr

/-- The chunk-streaming loop (audio.py lines 196-202):
`while not listener.done and not client.close_flag:` read one chunk,
break when empty, `await client.send_data(chunk)`, `await sleep(0.100)`.
`r` is the number of chunks still unread, `idx` the index of the next
chunk, and each of the two awaits is one suspension point.  When no
chunk remains, the condition exit and the empty-read `break` both leave
the loop with the state unchanged, so the two are merged into one arm. -/
def chunkLoop (w : World) : Nat → Nat → ListenerState → Nat → ChunkExit
  | 0, _idx, s, t => .finished s t
  | r' + 1, idx, s, t =>
    if s.done || w.closeFlag t then .finished s t
    else if w.sendFails idx then .sendRaised s t
    else
      chunkLoop w r' (idx + 1)
        (deliver (deliver s (w.delivered t)) (w.delivered (t + 1))) (t + 2)

/-- The completion poll (audio.py lines 210-214):
`for _ in range(timeout * 10): if listener.done: break; await sleep(0.1)`.
Returns the listener state, the suspension clock, and how many sleep
iterations actually ran. -/
def completionPoll (w : World) (fuel : Nat) (s : ListenerState) (t : Nat) :
    ListenerState × Nat × Nat :=
  match fuel with
  | 0 => (s, t, 0)
  | fuel' + 1 =>
    if s.done then (s, t, 0)
    else
      let out := completionPoll w fuel' (deliver s (w.delivered t)) (t + 1)
      (out.1, out.2.1, out.2.2 + 1)

/-- States and clock after `request_final_result`'s own suspension
(audio.py line 207) followed by the full completion poll with the
source's ceiling `timeout * 10 = 30 * 10` (lines 210-214). -/
def pollPhase (w : World) (s2 : ListenerState) (t2 : Nat) :
    ListenerState × Nat × Nat :=
  completionPoll w (30 * 10) (deliver s2 (w.delivered t2)) (t2 + 1)

/-- Listener state after the bounded join on the connect task
(audio.py lines 220-223), which is one more suspension point. -/
def finishState (w : World) (s2 : ListenerState) (t2 : Nat) : ListenerState :=
  deliver (pollPhase w s2 t2).1 (w.delivered (pollPhase w s2 t2).2.1)

/-- The tail of the `try` block after streaming succeeded (audio.py lines
207-228) combined with the `except` handler (lines 230-232):
`request_final_result`, completion poll, `client.close()` (first close),
bounded join of the connect task, then `if listener.error_message:` raise
`RuntimeError(f"Transcription failed: {...}")` — which the `except`
handler catches, closing a second time — else return
`listener.final_transcription or " ".join(listener.partial_transcriptions)`. -/
def finishSession (w : World) (s2 : ListenerState) (t2 : Nat) : OrchTrace :=
  if pyTruthyOptStr (finishState w s2 t2).error_message then
    { outcome := .transcriptionError
        ("Transcription failed: " ++ ((finishState w s2 t2).error_message.getD ""))
    , closeCount := 2
    , authCalled := true
    , clientConstructed := true
    , connectCalled := true
    , pollIters := (pollPhase w s2 t2).2.2
    , finalState := finishState w s2 t2 }
  else
    { outcome := .ok (pyOrStr (finishState w s2 t2).final_transcription
        (String.intercalate " " (finishState w s2 t2).partial_transcriptions))
    , closeCount := 1
    , authCalled := true
    , clientConstructed := true
    , connectCalled := true
    , pollIters := (pollPhase w s2 t2).2.2
    , finalState := finishState w s2 t2 }

/-- Exit trace when `compartment_id` is falsy (audio.py lines 160-161):
`ValueError("compartment_id is required")` before the listener, signer,
client or connection exist. -/
def valueErrorTrace : OrchTrace :=
  { outcome := .valueError "compartment_id is required"
  , closeCount := 0
  , authCalled := false
  , clientConstructed := false
  , connectCalled := false
  , pollIters := 0
  , finalState := initListener }

/-- Exit trace when `get_authenticator()` raises (audio.py line 167):
before the client is constructed, before the `try`, so no close runs. -/
def authErrorTrace (m : String) : OrchTrace :=
  { outcome := .authError m
  , closeCount := 0
  , authCalled := true
  , clientConstructed := false
  , connectCalled := false
  , pollIters := 0
  , finalState := initListener }

/-- Exit trace when `send_data` raises inside the `try` (audio.py line
201): the `except` handler closes once and re-raises. -/
def sendErrorTrace (s : ListenerState) : OrchTrace :=
  { outcome := .sendError
  , closeCount := 1
  , authCalled := true
  , clientConstructed := true
  , connectCalled := true
  , pollIters := 0
  , finalState := s }

/-- Exit trace when `request_final_result` raises (audio.py line 207):
the `except` handler closes once and re-raises. -/
def finalReqErrorTrace (s : ListenerState) : OrchTrace :=
  { outcome := .finalRequestError
  , closeCount := 1
  , authCalled := true
  , clientConstructed := true
  , connectCalled := true
  , pollIters := 0
  , finalState := s }

/-- `transcribe_audio_file` (audio.py lines 141-232), step by step:
validate `compartment_id` (160-161), create the listener (164), resolve
credentials (167), build parameters and the client (170-181; `language`,
`modelType` and `region` only configure the opaque backend and do not
influence the observable trace), then the `try` block: start the connect
task (185), connection poll (188-189), chunk streaming (193-202),
`request_final_result` plus completion poll plus close plus join plus
error check plus return (207-228), with the `except` handler (230-232)
closing once more and re-raising on any exception from the `try` body.
`none` means the run is still stuck in the unbounded connection poll. -/
def transcribeAudioFile (w : World) (audioLen : Nat) (_language : String)
    (_modelType : String) (compartmentId : Option String) (_region : String)
    (connFuel : Nat) : Option OrchTrace :=
  if pyFalsyStr compartmentId then some valueErrorTrace
  else
    match w.authResult with
    | .error m => some (authErrorTrace m)
    | .ok _ =>
      match connWait w connFuel initListener 0 with
      | none => none
      | some (s1, t1) =>
        match chunkLoop w (numChunks audioLen) 0 s1 t1 with
        | .sendRaised s2 _ => some (sendErrorTrace s2)
        | .finished s2 t2 =>
          if w.finalResultFails then some (finalReqErrorTrace s2)
          else some (finishSession w s2 t2)

/-
Endpoint embedding: the `transcriptions` route handler
(audio.py lines 240-314).
-/

/-- The Python exceptions the handler's `try` body can raise, by the
classes its `except` clauses discriminate on: `fastapi.HTTPException`
(a subclass of `Exception` but of neither `ValueError` nor
`RuntimeError`), `ValueError`, `RuntimeError`, and anything else
(e.g. whatever the SDK raises from `send_data`). -/
inductive PyExn where
  | httpExn (status : Nat) (detail : String)
  | valueErr (msg : String)
  | runtimeErr (msg : String)
  | otherExn
deriving DecidableEq, Repr

/-- A response the endpoint can produce: the four `response_format`
shapes (audio.py lines 287-304) or an `HTTPException` propagated to the
client as an HTTP error with a status and detail string. -/
inductive Response where
  | jsonBody (text : String)
  | plainBody (content : String)
  | srtBody (content : String)
  | verboseBody (language : String) (text : String)
  | httpError (status : Nat) (detail : String)
deriving DecidableEq, Repr

/-- The handler's `except` cascade (audio.py lines 308-314), in source
order: `except ValueError` → 400 with `str(e)`; `except RuntimeError` →
500 with `str(e)`; `except Exception` → 500 "Internal server error".
An `HTTPException` raised inside the `try` body matches none of the first
two clauses and so is swallowed by the third. -/
def handleExn : PyExn → Response
  | .valueErr m => .httpError 400 m
  | .runtimeErr m => .httpError 500 m
  | .httpExn _ _ => .httpError 500 "Internal server error"
  | .otherExn => .httpError 500 "Internal server error"

/-- The `response_format` dispatch (audio.py lines 287-306): json, text,
srt (placeholder single cue) and verbose_json succeed; anything else
raises `HTTPException(400, f"Unsupported response format: ...")`. -/
def renderFormat (fmt : String) (lang : String) (text : String) :
    Except PyExn Response :=
  if fmt == "json" then .ok (.jsonBody text)
  else if fmt == "text" then .ok (.plainBody text)
  else if fmt == "srt" then
    .ok (.srtBody ("1\n00:00:00,000 --> 00:00:10,000\n" ++ text ++ "\n"))
  else if fmt == "verbose_json" then .ok (.verboseBody lang text)
  else .error (.httpExn 400 ("Unsupported response format: " ++ fmt))

/-- The `try` body of the handler (audio.py lines 262-306): validate the
upload (`if not file` → HTTPException 400 "Audio file is required";
zero-length body → HTTPException 400 "Empty file provided"), default the
language to "en-US", call `transcribe_audio_file` with the process-wide
`OCI_COMPARTMENT` / `OCI_REGION`, then render per `response_format`.
Each orchestrator exit is mapped to the exception class the source
raises there: `ValueError` from the compartment check, `RuntimeError`
from `get_authenticator` and from the `Transcription failed:` raise; SDK
exceptions from `send_data` / `request_final_result` have no specified
class and are modelled as `otherExn` (any non-ValueError,
non-RuntimeError exception lands in the same `except Exception` clause).
`none` means the orchestrator never returned. -/
def endpointTry (w : World) (connFuel : Nat) (filePresent : Bool)
    (fileLen : Nat) (model : String) (language : Option String)
    (responseFormat : String) (ociCompartment : Option String)
    (ociRegion : String) : Option (Except PyExn Response) :=
  if !filePresent then some (.error (.httpExn 400 "Audio file is required"))
  else if fileLen == 0 then some (.error (.httpExn 400 "Empty file provided"))
  else
    let lang := if pyFalsyStr language then "en-US" else language.getD ""
    match transcribeAudioFile w fileLen lang model ociCompartment ociRegion connFuel with
    | none => none
    | some tr =>
      match tr.outcome with
      | .ok text => some (renderFormat responseFormat lang text)
      | .valueError m => some (.error (.valueErr m))
      | .authError m => some (.error (.runtimeErr m))
      | .sendError => some (.error .otherExn)
      | .finalRequestError => some (.error .otherExn)
      | .transcriptionError m => some (.error (.runtimeErr m))

/-- The `transcriptions` route handler (audio.py lines 240-314): run the
`try` body and apply the `except` cascade to any exception it raised. -/
def transcriptionsEndpoint (w : World) (connFuel : Nat) (filePresent : Bool)
    (fileLen : Nat) (model : String) (language : Option String)
    (responseFormat : String) (ociCompartment : Option String)
    (ociRegion : String) : Option Response :=
  match endpointTry w connFuel filePresent fileLen model language
      responseFormat ociCompartment ociRegion with
  | none => none
  | some (.ok r) => some r
  | some (.error e) => some (handleExn e)

/-
Concrete environments and traces used to exercise the embedding.
-/

/-- A backend that never fires a callback and never closes. -/
def wQuiet : World :=
  { delivered := fun _ => []
  , closeFlag := fun _ => false
  , authResult := .ok ()
  , sendFails := fun _ => false
  , finalResultFails := false }

/-- A backend that connects during the first suspension and then stays
silent forever: the session runs to the soft-timeout return. -/
def wConnect : World :=
  { delivered := fun t => if t == 0 then [Event.connect] else []
  , closeFlag := fun _ => false
  , authResult := .ok ()
  , sendFails := fun _ => false
  , finalResultFails := false }

/-- A backend that connects and immediately reports the error "boom". -/
def wBoom : World :=
  { delivered := fun t => if t == 0 then [Event.connect, Event.error "boom"] else []
  , closeFlag := fun _ => false
  , authResult := .ok ()
  , sendFails := fun _ => false
  , finalResultFails := false }

/-- The trace `transcribeAudioFile wConnect 0 ... 2` produces: a full
300-iteration completion poll followed by the soft-timeout return of the
(empty) accumulated transcript, with exactly one close. -/
def trIdle : OrchTrace :=
  { outcome := .ok ""
  , closeCount := 1
  , authCalled := true
  , clientConstructed := true
  , connectCalled := true
  , pollIters := 300
  , finalState :=
    { final_transcription := ""
    , partial_transcriptions := []
    , error_message := none
    , connected := true
    , done := false
    , final_chunk := false } }

/-- The trace `transcribeAudioFile wBoom 0 ... 2` produces: the listener
records "boom", the orchestrator raises `Transcription failed: boom`, and
`client.close()` runs twice (once before the raise, once in the `except`
handler). -/
def trBoom : OrchTrace :=
  { outcome := .transcriptionError "Transcription failed: boom"
  , closeCount := 2
  , authCalled := true
  , clientConstructed := true
  , connectCalled := true
  , pollIters := 0
  , finalState :=
    { final_transcription := ""
    , partial_transcriptions := []
    , error_message := some "boom"
    , connected := true
    , done := true
    , final_chunk := false } }

/-- Events used to exercise final-transcript accumulation: two final
results around one partial result. -/
def sampleResultEvents : List Event :=
  [ Event.result [{ transcription := "hello", isFinal := true }]
  , Event.result [{ transcription := "uh", isFinal := false }]
  , Event.result [{ transcription := "world", isFinal := true }] ]

/-- Events used to exercise partial-transcript accumulation: two
non-final results. -/
def samplePartialEvents : List Event :=
  [ Event.result [{ transcription := "a", isFinal := false }]
  , Event.result [{ transcription := "ab", isFinal := false }] ]

/-- The listener invariant the streaming phases preserve while the
backend stays benign: the session is not done and no final chunk was
ever requested (line 205 of audio.py, `listener.final_chunk = True`, is
commented out). -/
def stillRunning (s : ListenerState) : Prop :=
  s.done = false ∧ s.final_chunk = false

/-- A backend that only ever delivers benign callbacks: successful
result events and connection-level notifications, no error, no close,
no malformed payload. -/
def benignWorld (w : World) : Prop :=
  ∀ t, ∀ e ∈ w.delivered t, benignEvent e = true

/-
Helper lemmas about the listener.
-/

lemma listenerStep_final_chunk (s : ListenerState) (e : Event) :
    (listenerStep s e).final_chunk = s.final_chunk := by
  cases e with
  | result ts =>
    cases ts with
    | nil => rfl
    | cons c rest => cases hc : c.isFinal <;> simp [listenerStep, hc]
  | resultMalformed m => rfl
  | error m => rfl
  | connect => rfl
  | connectMessage => rfl
  | ackMessage => rfl
  | networkEvent => rfl
  | close a b => rfl

lemma listenerStep_done_mono (s : ListenerState) (e : Event) (h : s.done = true) :
    (listenerStep s e).done = true := by
  cases e with
  | result ts =>
    cases ts with
    | nil => exact h
    | cons c rest =>
      cases hc : c.isFinal <;> cases hf : s.final_chunk <;> simp [listenerStep, hc, hf, h]
  | resultMalformed m => rfl
  | error m => rfl
  | connect => simpa [listenerStep] using h
  | connectMessage => simpa [listenerStep] using h
  | ackMessage => exact h
  | networkEvent => exact h
  | close a b => rfl

lemma deliver_done_mono (evs : List Event) (s : ListenerState) (h : s.done = true) :
    (deliver s evs).done = true := by
  induction evs generalizing s with
  | nil => exact h
  | cons e rest ih => exact ih (listenerStep s e) (listenerStep_done_mono s e h)

lemma terminal_step_done (s : ListenerState) (e : Event) (h : isTerminalEvent e = true) :
    (listenerStep s e).done = true := by
  cases e with
  | error m => rfl
  | close a b => rfl
  | result ts => simp [isTerminalEvent] at h
  | resultMalformed m => rfl
  | connect => simp [isTerminalEvent] at h
  | connectMessage => simp [isTerminalEvent] at h
  | ackMessage => simp [isTerminalEvent] at h
  | networkEvent => simp [isTerminalEvent] at h

lemma deliver_append (s : ListenerState) (a b : List Event) :
    deliver s (a ++ b) = deliver (deliver s a) b := by
  simp [deliver, List.foldl_append]

lemma listenerStep_error_message (s : ListenerState) (e : Event) :
    (listenerStep s e).error_message =
      (match errOf e with | some m => some m | none => s.error_message) := by
  cases e with
  | result ts =>
    cases ts with
    | nil => rfl
    | cons c rest => cases hc : c.isFinal <;> simp [listenerStep, errOf, hc]
  | resultMalformed m => rfl
  | error m => rfl
  | connect => rfl
  | connectMessage => rfl
  | ackMessage => rfl
  | networkEvent => rfl
  | close a b => rfl

lemma deliver_error_message (evs : List Event) (s : ListenerState) :
    (deliver s evs).error_message =
      evs.foldl (fun acc e => match errOf e with | some m => some m | none => acc)
        s.error_message := by
  induction evs generalizing s with
  | nil => rfl
  | cons e rest ih =>
    show (deliver (listenerStep s e) rest).error_message = _
    rw [ih, listenerStep_error_message]
    rfl

lemma listenerStep_final_transcription (s : ListenerState) (e : Event) :
    (listenerStep s e).final_transcription = s.final_transcription ++ finalContrib e := by
  cases e with
  | result ts =>
    cases ts with
    | nil => simp [listenerStep, finalContrib, firstFinalText, String.append_empty]
    | cons c rest =>
      cases hc : c.isFinal <;>
        simp [listenerStep, finalContrib, firstFinalText, hc, String.append_assoc,
          String.append_empty]
  | resultMalformed m =>
    simp [listenerStep, finalContrib, firstFinalText, String.append_empty]
  | error m => simp [listenerStep, finalContrib, firstFinalText, String.append_empty]
  | connect => simp [listenerStep, finalContrib, firstFinalText, String.append_empty]
  | connectMessage => simp [listenerStep, finalContrib, firstFinalText, String.append_empty]
  | ackMessage => simp [listenerStep, finalContrib, firstFinalText, String.append_empty]
  | networkEvent => simp [listenerStep, finalContrib, firstFinalText, String.append_empty]
  | close a b => simp [listenerStep, finalContrib, firstFinalText, String.append_empty]

lemma deliver_final_transcription (evs : List Event) (s : ListenerState) :
    (deliver s evs).final_transcription = s.final_transcription ++ finalAccum evs := by
  induction evs generalizing s with
  | nil => simp [deliver, finalAccum, String.append_empty]
  | cons e rest ih =>
    show (deliver (listenerStep s e) rest).final_transcription = _
    rw [ih, listenerStep_final_transcription, finalAccum, String.append_assoc]

lemma listenerStep_nonfinal (s : ListenerState) (e : Event)
    (h : isNonFinalResult e = true) :
    (listenerStep s e).final_transcription = s.final_transcription ∧
    (listenerStep s e).partial_transcriptions.length
      = s.partial_transcriptions.length + 1 := by
  cases e with
  | result ts =>
    cases ts with
    | nil => simp [isNonFinalResult] at h
    | cons c rest =>
      have hc : c.isFinal = false := by simpa [isNonFinalResult] using h
      simp [listenerStep, hc]
  | resultMalformed m => simp [isNonFinalResult] at h
  | error m => simp [isNonFinalResult] at h
  | connect => simp [isNonFinalResult] at h
  | connectMessage => simp [isNonFinalResult] at h
  | ackMessage => simp [isNonFinalResult] at h
  | networkEvent => simp [isNonFinalResult] at h
  | close a b => simp [isNonFinalResult] at h

lemma deliver_nonfinal (evs : List Event) (s : ListenerState)
    (h : ∀ e ∈ evs, isNonFinalResult e = true) :
    (deliver s evs).final_transcription = s.final_transcription ∧
    (deliver s evs).partial_transcriptions.length
      = s.partial_transcriptions.length + evs.length := by
  induction evs generalizing s with
  | nil => simp [deliver]
  | cons e rest ih =>
    have he := h e (List.mem_cons_self e rest)
    have hrest : ∀ x ∈ rest, isNonFinalResult x = true :=
      fun x hx => h x (List.mem_cons_of_mem e hx)
    have hstep := listenerStep_nonfinal s e he
    have htail := ih (listenerStep s e) hrest
    refine ⟨?_, ?_⟩
    · show (deliver (listenerStep s e) rest).final_transcription = _
      rw [htail.1, hstep.1]
    · show (deliver (listenerStep s e) rest).partial_transcriptions.length = _
      rw [htail.2, hstep.2]
      simp [List.length_cons]
      omega

lemma benign_step (s : ListenerState) (e : Event) (hb : benignEvent e = true)
    (hs : stillRunning s) : stillRunning (listenerStep s e) := by
  obtain ⟨hd, hf⟩ := hs
  cases e with
  | result ts =>
    cases ts with
    | nil => exact ⟨hd, hf⟩
    | cons c rest =>
      cases hc : c.isFinal <;> simp [listenerStep, stillRunning, hc, hd, hf]
  | resultMalformed m => simp [benignEvent] at hb
  | error m => simp [benignEvent] at hb
  | connect => simp [listenerStep, stillRunning, hd, hf]
  | connectMessage => simp [listenerStep, stillRunning, hd, hf]
  | ackMessage => exact ⟨hd, hf⟩
  | networkEvent => exact ⟨hd, hf⟩
  | close a b => simp [benignEvent] at hb

lemma benign_deliver (evs : List Event) (s : ListenerState)
    (hb : ∀ e ∈ evs, benignEvent e = true) (hs : stillRunning s) :
    stillRunning (deliver s evs) := by
  induction evs generalizing s with
  | nil => exact hs
  | cons e rest ih =>
    exact ih (listenerStep s e)
      (fun x hx => hb x (List.mem_cons_of_mem e hx))
      (benign_step s e (hb e (List.mem_cons_self e rest)) hs)

/-
Helper lemmas about the orchestrator phases.
-/

lemma connWait_stillRunning (w : World) (hw : benignWorld w) (fuel : Nat)
    (s : ListenerState) (t : Nat) (s' : ListenerState) (t' : Nat)
    (hs : stillRunning s) (h : connWait w fuel s t = some (s', t')) :
    stillRunning s' := by
  induction fuel generalizing s t with
  | zero =>
    unfold connWait at h
    split at h
    · simp only [Option.some.injEq, Prod.mk.injEq] at h
      obtain ⟨rfl, rfl⟩ := h
      exact hs
    · exact Option.noConfusion h
  | succ n ih =>
    unfold connWait at h
    split at h
    · simp only [Option.some.injEq, Prod.mk.injEq] at h
      obtain ⟨rfl, rfl⟩ := h
      exact hs
    · exact ih (deliver s (w.delivered t)) (t + 1)
        (benign_deliver (w.delivered t) s (hw t) hs) h

lemma chunkLoop_finished_stillRunning (w : World) (hw : benignWorld w) (r : Nat)
    (idx : Nat) (s : ListenerState) (t : Nat) (s' : ListenerState) (t' : Nat)
    (hs : stillRunning s) (h : chunkLoop w r idx s t = .finished s' t') :
    stillRunning s' := by
  induction r generalizing idx s t with
  | zero =>
    simp only [chunkLoop] at h
    injection h with h1 h2
    subst h1
    exact hs
  | succ n ih =>
    simp only [chunkLoop] at h
    split at h
    · injection h with h1 h2
      subst h1
      exact hs
    · split at h
      · exact ChunkExit.noConfusion h
      · exact ih (idx + 1)
          (deliver (deliver s (w.delivered t)) (w.delivered (t + 1))) (t + 2)
          (benign_deliver (w.delivered (t + 1)) _ (hw (t + 1))
            (benign_deliver (w.delivered t) s (hw t) hs)) h

lemma completionPoll_full (w : World) (hw : benignWorld w) (n : Nat)
    (s : ListenerState) (t : Nat) (hs : stillRunning s) :
    (completionPoll w n s t).2.2 = n := by
  induction n generalizing s t with
  | zero => rfl
  | succ n ih =>
    unfold completionPoll
    rw [if_neg (by simp [hs.1])]
    simpa using ih (deliver s (w.delivered t)) (t + 1)
      (benign_deliver (w.delivered t) s (hw t) hs)

lemma benignWorld_wConnect : benignWorld wConnect := by
  intro t e he
  cases t with
  | zero =>
    simp [wConnect] at he
    subst he
    rfl
  | succ n => simp [wConnect] at he

lemma stillRunning_init : stillRunning initListener :=
  ⟨rfl, rfl⟩

/-- Every returned trace of `transcribeAudioFile` comes from exactly one
of the five exit paths of the source function. -/
lemma transcribeAudioFile_some_cases (w : World) (len : Nat) (lang mt region : String)
    (cid : Option String) (fuel : Nat) (tr : OrchTrace)
    (h : transcribeAudioFile w len lang mt cid region fuel = some tr) :
    (pyFalsyStr cid = true ∧ tr = valueErrorTrace) ∨
    (∃ m, w.authResult = .error m ∧ tr = authErrorTrace m) ∨
    (∃ s1 t1 s2 t2, connWait w fuel initListener 0 = some (s1, t1) ∧
      ((chunkLoop w (numChunks len) 0 s1 t1 = .sendRaised s2 t2 ∧ tr = sendErrorTrace s2) ∨
       (chunkLoop w (numChunks len) 0 s1 t1 = .finished s2 t2 ∧
         ((w.finalResultFails = true ∧ tr = finalReqErrorTrace s2) ∨
          (w.finalResultFails = false ∧ tr = finishSession w s2 t2))))) := by
  unfold transcribeAudioFile at h
  split at h
  next h1 =>
    exact Or.inl ⟨h1, (Option.some.inj h).symm⟩
  next h1 =>
    right
    split at h
    next m ha =>
      exact Or.inl ⟨m, ha, (Option.some.inj h).symm⟩
    next u ha =>
      right
      split at h
      next hc =>
        exact Option.noConfusion h
      next s1 t1 hc =>
        split at h
        next s2 t hk =>
          exact ⟨s1, t1, s2, t, hc, Or.inl ⟨hk, (Option.some.inj h).symm⟩⟩
        next s2 t2 hk =>
          split at h
          next hf =>
            exact ⟨s1, t1, s2, t2, hc,
              Or.inr ⟨hk, Or.inl ⟨hf, (Option.some.inj h).symm⟩⟩⟩
          next hf =>
            exact ⟨s1, t1, s2, t2, hc,
              Or.inr ⟨hk, Or.inr ⟨by simpa using hf, (Option.some.inj h).symm⟩⟩⟩

lemma finishSession_pollIters (w : World) (s2 : ListenerState) (t2 : Nat) :
    (finishSession w s2 t2).pollIters = (pollPhase w s2 t2).2.2 := by
  unfold finishSession
  split <;> rfl

lemma finishSession_finalState (w : World) (s2 : ListenerState) (t2 : Nat) :
    (finishSession w s2 t2).finalState = finishState w s2 t2 := by
  unfold finishSession
  split <;> rfl

lemma finishSession_outcome_cases (w : World) (s2 : ListenerState) (t2 : Nat) :
    ((finishSession w s2 t2).closeCount = 2 ∧
      ∃ m, (finishSession w s2 t2).outcome = Outcome.transcriptionError m) ∨
    ((finishSession w s2 t2).closeCount = 1 ∧
      ∃ txt, (finishSession w s2 t2).outcome = Outcome.ok txt) := by
  unfold finishSession
  split
  · exact Or.inl ⟨rfl, _, rfl⟩
  · exact Or.inr ⟨rfl, _, rfl⟩

lemma finishSession_ok (w : World) (s2 : ListenerState) (t2 : Nat)
    (h : (finishState w s2 t2).error_message = none) :
    (finishSession w s2 t2).outcome
      = Outcome.ok (pyOrStr (finishState w s2 t2).final_transcription
          (String.intercalate " " (finishState w s2 t2).partial_transcriptions)) ∧
    (finishSession w s2 t2).closeCount = 1 := by
  unfold finishSession
  rw [if_neg (by rw [h]; simp [pyTruthyOptStr])]
  exact ⟨rfl, rfl⟩

lemma pollPhase_full (w : World) (hw : benignWorld w) (s2 : ListenerState)
    (t2 : Nat) (hs : stillRunning s2) : (pollPhase w s2 t2).2.2 = 30 * 10 := by
  unfold pollPhase
  exact completionPoll_full w hw (30 * 10) _ _
    (benign_deliver (w.delivered t2) s2 (hw t2) hs)

/-
Claim theorems.
-/

/-- Claim C3, counterexample: the claim says that once `done` is true no
subsequently delivered event mutates `final_transcription`,
`partial_transcriptions` or `error_message`.  But after a close event
(`done` already true) a final result event still appends to
`final_transcription`, because `on_result` never consults `done`. -/
theorem c3_counterexample :
    (runListener [Event.close 1000 "closed"]).done = true ∧
    (runListener [Event.close 1000 "closed",
        Event.result [{ transcription := "x", isFinal := true }]]).final_transcription
      ≠ (runListener [Event.close 1000 "closed"]).final_transcription := by
  decide

/-- Claim C3, amended: once `done` is true it stays true, and the
connect, connect-message, ack, network and close events leave
`final_transcription`, `partial_transcriptions` and `error_message`
unchanged; result and error events delivered after `done`, however, may
still mutate the accumulated state (as the counterexample shows). -/
theorem c3_amended (s : ListenerState) (e : Event) (hd : s.done = true)
    (hp : isPassiveEvent e = true) :
    (listenerStep s e).done = true ∧
    (listenerStep s e).final_transcription = s.final_transcription ∧
    (listenerStep s e).partial_transcriptions = s.partial_transcriptions ∧
    (listenerStep s e).error_message = s.error_message := by
  cases e with
  | result ts => simp [isPassiveEvent] at hp
  | resultMalformed m => simp [isPassiveEvent] at hp
  | error m => simp [isPassiveEvent] at hp
  | connect => simp [listenerStep, hd]
  | connectMessage => simp [listenerStep, hd]
  | ackMessage => exact ⟨hd, rfl, rfl, rfl⟩
  | networkEvent => exact ⟨hd, rfl, rfl, rfl⟩
  | close a b => simp [listenerStep]

/-- Claim C3, witness for the amended theorem: a listener made terminal
by an error event, receiving an ack event. -/
theorem c3_amended_witness :
    ((runListener [Event.error "e"]).done = true ∧
      isPassiveEvent Event.ackMessage = true) ∧
    ((listenerStep (runListener [Event.error "e"]) Event.ackMessage).done = true ∧
      (listenerStep (runListener [Event.error "e"]) Event.ackMessage).final_transcription
        = (runListener [Event.error "e"]).final_transcription ∧
      (listenerStep (runListener [Event.error "e"]) Event.ackMessage).partial_transcriptions
        = (runListener [Event.error "e"]).partial_transcriptions ∧
      (listenerStep (runListener [Event.error "e"]) Event.ackMessage).error_message
        = (runListener [Event.error "e"]).error_message) :=
  ⟨⟨by decide, by decide⟩,
    c3_amended (runListener [Event.error "e"]) Event.ackMessage (by decide) (by decide)⟩

/-- Claim C4: once an error event or a close event is delivered, `done`
is true and remains true for every subsequent event, whatever arrives
afterwards: `on_error` and `on_close` both set `done`, and no handler
ever resets it. -/
theorem c4_terminal_done_forever (pre : List Event) (e : Event) (post : List Event)
    (he : isTerminalEvent e = true) :
    (runListener (pre ++ e :: post)).done = true := by
  rw [runListener, deliver_append]
  exact deliver_done_mono post _ (terminal_step_done (deliver initListener pre) e he)

/-- Claim C4, witness: an error event delivered between a connect event
and a trailing result event leaves `done` true at the end. -/
theorem c4_witness :
    isTerminalEvent (Event.error "boom") = true ∧
    (runListener ([Event.connect] ++ Event.error "boom" ::
        [Event.result [{ transcription := "x", isFinal := false }]])).done = true :=
  ⟨by decide,
    c4_terminal_done_forever [Event.connect] (Event.error "boom")
      [Event.result [{ transcription := "x", isFinal := false }]] (by decide)⟩

/-- Claim C5, counterexample: the claim says error recording is
first-wins, but `on_error` unconditionally overwrites `error_message`
(audio.py line 72): a second error event changes the recorded error. -/
theorem c5_counterexample :
    (runListener [Event.error "first"]).error_message = some "first" ∧
    (listenerStep (runListener [Event.error "first"]) (Event.error "second")).error_message
      ≠ (runListener [Event.error "first"]).error_message := by
  decide

/-- Claim C5, amended: the listener keeps a single `error_message` field
but recording is last-wins, not first-wins: every error event (and every
caught parsing exception) overwrites it, so after any event sequence the
recorded error equals the message of the most recent error-recording
event, or `none` when there was none. -/
theorem c5_amended_last_wins (evs : List Event) :
    (runListener evs).error_message = mostRecentError evs :=
  deliver_error_message evs initListener

/-- Claim C7: after any sequence of result events, `final_transcription`
equals the concatenation, in arrival order, of the first candidate's
text from each final result event, each text followed by one space. -/
theorem c7_final_space_joined (evs : List Event)
    (_h : ∀ e ∈ evs, isWellFormedResult e = true) :
    (runListener evs).final_transcription = finalAccum evs := by
  have hd := deliver_final_transcription evs initListener
  rw [runListener, hd]
  exact String.empty_append (finalAccum evs)

/-- Claim C7, witness: final "hello", partial "uh", final "world"
accumulate to exactly "hello world ". -/
theorem c7_witness :
    (∀ e ∈ sampleResultEvents, isWellFormedResult e = true) ∧
    (runListener sampleResultEvents).final_transcription = finalAccum sampleResultEvents ∧
    finalAccum sampleResultEvents = "hello world " :=
  ⟨by decide, c7_final_space_joined sampleResultEvents (by decide), by decide⟩

/-- Claim C8: for every sequence consisting of non-final result events
(delivered before any final result event), `final_transcription` stays
empty and `partial_transcriptions` grows by exactly one entry per
delivered event. -/
theorem c8_partials_grow_one_per_event (evs : List Event)
    (h : ∀ e ∈ evs, isNonFinalResult e = true) :
    (runListener evs).final_transcription = "" ∧
    (runListener evs).partial_transcriptions.length = evs.length := by
  have hd := deliver_nonfinal evs initListener h
  constructor
  · rw [runListener, hd.1]
    rfl
  · rw [runListener, hd.2]
    simp [initListener]

/-- Claim C8, witness: two non-final result events leave the final
transcript empty and produce exactly two partial entries. -/
theorem c8_witness :
    (∀ e ∈ samplePartialEvents, isNonFinalResult e = true) ∧
    ((runListener samplePartialEvents).final_transcription = "" ∧
      (runListener samplePartialEvents).partial_transcriptions.length
        = samplePartialEvents.length) :=
  ⟨by decide, c8_partials_grow_one_per_event samplePartialEvents (by decide)⟩

/-- Claim C2, counterexample: the claim says close is invoked exactly
once on every exit path, including the backend-reported-error path.  But
on that path `client.close()` at line 217 runs, then line 226 raises
`RuntimeError`, and the `except` handler at line 231 closes again: with a
backend that reports "boom", the trace shows two close calls after
client construction. -/
theorem c2_counterexample :
    (transcribeAudioFile wBoom 0 "en-US" "whisper-1" (some "c") "us-ashburn-1" 2).map
      (fun tr => (tr.clientConstructed, tr.closeCount)) = some (true, 2) := by
  decide

/-- Claim C2, amended: on every exit path after client construction the
backend connection's close operation is invoked at least once and at
most twice; it is invoked exactly twice precisely on the
backend-reported-error path (where the `Transcription failed:` raise at
line 226 follows the unconditional close at line 217 and the `except`
handler closes again), and exactly once on every other exit path. -/
theorem c2_close_counts (w : World) (len : Nat) (lang mt region : String)
    (cid : Option String) (fuel : Nat) (tr : OrchTrace)
    (h : transcribeAudioFile w len lang mt cid region fuel = some tr)
    (hcl : tr.clientConstructed = true) :
    (1 ≤ tr.closeCount ∧ tr.closeCount ≤ 2) ∧
    (tr.closeCount = 2 ↔ ∃ m, tr.outcome = Outcome.transcriptionError m) := by
  rcases transcribeAudioFile_some_cases w len lang mt region cid fuel tr h with
    ⟨_, rfl⟩ | ⟨m, _, rfl⟩ | ⟨s1, t1, s2, t2, hc, hrest⟩
  · simp [valueErrorTrace] at hcl
  · simp [authErrorTrace] at hcl
  · rcases hrest with ⟨hk, rfl⟩ | ⟨hk, hfin⟩
    · exact ⟨by constructor <;> simp [sendErrorTrace], by simp [sendErrorTrace]⟩
    · rcases hfin with ⟨_, rfl⟩ | ⟨_, rfl⟩
      · exact ⟨by constructor <;> simp [finalReqErrorTrace], by simp [finalReqErrorTrace]⟩
      · rcases finishSession_outcome_cases w s2 t2 with ⟨h2, m, hm⟩ | ⟨h1, txt, hok⟩
        · rw [h2]
          exact ⟨⟨by omega, by omega⟩, ⟨fun _ => ⟨m, hm⟩, fun _ => rfl⟩⟩
        · rw [h1]
          refine ⟨⟨by omega, by omega⟩, ?_, ?_⟩
          · intro hx
            exact absurd hx (by omega)
          · rintro ⟨m, hm⟩
            rw [hok] at hm
            exact Outcome.noConfusion hm

/-- Claim C2, witness for the amended theorem: the backend-error run
`wBoom` reaches client construction, closes twice, and ends in a
transcription error. -/
theorem c2_close_witness :
    (transcribeAudioFile wBoom 0 "en-US" "whisper-1" (some "c") "us-ashburn-1" 2
        = some trBoom ∧ trBoom.clientConstructed = true) ∧
    ((1 ≤ trBoom.closeCount ∧ trBoom.closeCount ≤ 2) ∧
      (trBoom.closeCount = 2 ↔ ∃ m, trBoom.outcome = Outcome.transcriptionError m)) :=
  ⟨⟨by decide, rfl⟩,
    c2_close_counts wBoom 0 "en-US" "whisper-1" "us-ashburn-1" (some "c") 2 trBoom
      (by decide) rfl⟩

/-- Claim C6: if the completion poll runs its full 300-iteration ceiling,
`transcribe_audio_file` raises no timeout error: when the listener
recorded no error it returns `final_transcription or " ".join(partials)`
with exactly one close call.  (The `Outcome` type has no timeout
constructor at all, mirroring the absence of any raise on the poll
ceiling in the source.) -/
theorem c6_soft_timeout (w : World) (len : Nat) (lang mt region : String)
    (cid : Option String) (fuel : Nat) (tr : OrchTrace)
    (h : transcribeAudioFile w len lang mt cid region fuel = some tr)
    (hfull : tr.pollIters = 30 * 10)
    (herr : tr.finalState.error_message = none) :
    tr.outcome = Outcome.ok (pyOrStr tr.finalState.final_transcription
      (String.intercalate " " tr.finalState.partial_transcriptions)) ∧
    tr.closeCount = 1 := by
  rcases transcribeAudioFile_some_cases w len lang mt region cid fuel tr h with
    ⟨_, rfl⟩ | ⟨m, _, rfl⟩ | ⟨s1, t1, s2, t2, hc, hrest⟩
  · simp [valueErrorTrace] at hfull
  · simp [authErrorTrace] at hfull
  · rcases hrest with ⟨hk, rfl⟩ | ⟨hk, hfin⟩
    · simp [sendErrorTrace] at hfull
    · rcases hfin with ⟨_, rfl⟩ | ⟨_, rfl⟩
      · simp [finalReqErrorTrace] at hfull
      · rw [finishSession_finalState] at herr ⊢
        exact finishSession_ok w s2 t2 herr

/-- Claim C6, witness: a backend that connects and then stays silent
drives the poll through all 300 iterations, after which the call returns
the empty accumulated transcript with one close. -/
theorem c6_witness :
    (transcribeAudioFile wConnect 0 "en-US" "whisper-1" (some "c") "us-ashburn-1" 2
        = some trIdle ∧
      trIdle.pollIters = 30 * 10 ∧ trIdle.finalState.error_message = none) ∧
    (trIdle.outcome = Outcome.ok (pyOrStr trIdle.finalState.final_transcription
        (String.intercalate " " trIdle.finalState.partial_transcriptions)) ∧
      trIdle.closeCount = 1) :=
  ⟨⟨by decide, by decide, rfl⟩,
    c6_soft_timeout wConnect 0 "en-US" "whisper-1" "us-ashburn-1" (some "c") 2 trIdle
      (by decide) (by decide) rfl⟩

/-- Claim C9: a falsy `compartment_id` (absent or empty) makes
`transcribe_audio_file` fail with `ValueError("compartment_id is
required")` before any network activity — `valueErrorTrace` records that
no credential resolution, no client construction, no connect call and no
close happened — and a non-empty `compartment_id` always passes the
check: no returned trace carries a `ValueError` outcome. -/
theorem c9_compartment_required :
    (∀ (w : World) (len : Nat) (lang mt region : String) (cid : Option String)
        (fuel : Nat), pyFalsyStr cid = true →
        transcribeAudioFile w len lang mt cid region fuel = some valueErrorTrace) ∧
    (∀ (w : World) (len : Nat) (lang mt region s : String) (fuel : Nat)
        (tr : OrchTrace), ¬ s = "" →
        transcribeAudioFile w len lang mt (some s) region fuel = some tr →
        ∀ m, ¬ tr.outcome = Outcome.valueError m) := by
  constructor
  · intro w len lang mt region cid fuel h1
    unfold transcribeAudioFile
    rw [if_pos h1]
  · intro w len lang mt region s fuel tr hs h m
    rcases transcribeAudioFile_some_cases w len lang mt region (some s) fuel tr h with
      ⟨hfal, rfl⟩ | ⟨m2, _, rfl⟩ | ⟨s1, t1, s2, t2, hc, hrest⟩
    · exact absurd (by simpa [pyFalsyStr] using hfal) hs
    · simp [authErrorTrace]
    · rcases hrest with ⟨hk, rfl⟩ | ⟨hk, hfin⟩
      · simp [sendErrorTrace]
      · rcases hfin with ⟨_, rfl⟩ | ⟨_, rfl⟩
        · simp [finalReqErrorTrace]
        · rcases finishSession_outcome_cases w s2 t2 with ⟨_, m2, hm⟩ | ⟨_, txt, hok⟩
          · rw [hm]
            simp
          · rw [hok]
            simp

/-- Claim C9, witness: an empty compartment id yields the validation
trace with nothing reached; the non-empty compartment id "c" passes the
check (its trace's outcome is not a ValueError). -/
theorem c9_witness :
    (pyFalsyStr (some "") = true ∧
      transcribeAudioFile wQuiet 0 "en-US" "whisper-1" (some "") "us-ashburn-1" 0
        = some valueErrorTrace) ∧
    (¬ "c" = "" ∧
      ¬ trBoom.outcome = Outcome.valueError "compartment_id is required") :=
  ⟨⟨by decide,
      c9_compartment_required.1 wQuiet 0 "en-US" "whisper-1" "us-ashburn-1" (some "") 0
        (by decide)⟩,
    ⟨by decide,
      c9_compartment_required.2 wBoom 0 "en-US" "whisper-1" "us-ashburn-1" "c" 2 trBoom
        (by decide) (by decide) "compartment_id is required"⟩⟩

/-- Claim C10: `listener.final_chunk` is never set on any path — the
only assignment in the source (line 205) is commented out — so no
transition changes it and it starts false; a well-formed result event
alone never changes `done` while `final_chunk` is false; and hence a
session whose backend delivers only benign events (successful results
and connection notifications, no error and no close) runs the completion
poll through its full 300-iteration ceiling whenever it returns a
transcript. -/
theorem c10_final_chunk_never_set :
    ((∀ (s : ListenerState) (e : Event),
        (listenerStep s e).final_chunk = s.final_chunk) ∧
      initListener.final_chunk = false) ∧
    (∀ (s : ListenerState) (ts : List Candidate), s.final_chunk = false →
      (listenerStep s (Event.result ts)).done = s.done) ∧
    (∀ (w : World) (len : Nat) (lang mt region : String) (cid : Option String)
        (fuel : Nat) (tr : OrchTrace) (txt : String), benignWorld w →
        transcribeAudioFile w len lang mt cid region fuel = some tr →
        tr.outcome = Outcome.ok txt → tr.pollIters = 30 * 10) := by
  refine ⟨⟨listenerStep_final_chunk, rfl⟩, ?_, ?_⟩
  · intro s ts hf
    cases ts with
    | nil => rfl
    | cons c rest =>
      cases hc : c.isFinal <;> simp [listenerStep, hc, hf]
  · intro w len lang mt region cid fuel tr txt hw h hok
    rcases transcribeAudioFile_some_cases w len lang mt region cid fuel tr h with
      ⟨_, rfl⟩ | ⟨m, _, rfl⟩ | ⟨s1, t1, s2, t2, hc, hrest⟩
    · simp [valueErrorTrace] at hok
    · simp [authErrorTrace] at hok
    · rcases hrest with ⟨hk, rfl⟩ | ⟨hk, hfin⟩
      · simp [sendErrorTrace] at hok
      · rcases hfin with ⟨_, rfl⟩ | ⟨_, rfl⟩
        · simp [finalReqErrorTrace] at hok
        · have hs1 : stillRunning s1 :=
            connWait_stillRunning w hw fuel initListener 0 s1 t1 stillRunning_init hc
          have hs2 : stillRunning s2 :=
            chunkLoop_finished_stillRunning w hw (numChunks len) 0 s1 t1 s2 t2 hs1 hk
          rw [finishSession_pollIters]
          exact pollPhase_full w hw s2 t2 hs2

/-- Claim C10, witness: no step changes `final_chunk`; a final result
event leaves `done` unchanged on a fresh listener; and the silent
benign backend `wConnect` returns "" only after all 300 poll
iterations. -/
theorem c10_witness :
    ((listenerStep initListener Event.connect).final_chunk = initListener.final_chunk ∧
      initListener.final_chunk = false) ∧
    (initListener.final_chunk = false ∧
      (listenerStep initListener
        (Event.result [{ transcription := "x", isFinal := true }])).done
        = initListener.done) ∧
    (benignWorld wConnect ∧
      transcribeAudioFile wConnect 0 "en-US" "whisper-1" (some "c") "us-ashburn-1" 2
        = some trIdle ∧
      trIdle.outcome = Outcome.ok "" ∧
      trIdle.pollIters = 30 * 10) :=
  ⟨⟨c10_final_chunk_never_set.1.1 initListener Event.connect,
      c10_final_chunk_never_set.1.2⟩,
    ⟨rfl,
      c10_final_chunk_never_set.2.1 initListener
        [{ transcription := "x", isFinal := true }] rfl⟩,
    ⟨benignWorld_wConnect, by decide, rfl,
      c10_final_chunk_never_set.2.2 wConnect 0 "en-US" "whisper-1" "us-ashburn-1"
        (some "c") 2 trIdle "" benignWorld_wConnect (by decide) rfl⟩⟩

/-- Claim C1 (code bug evidence): both endpoint validation failures the
claim describes actually surface as HTTP 500 "Internal server error",
not as the documented 400s.  The `HTTPException(400, "Empty file
provided")` raised at line 271 and the `HTTPException(400, "Unsupported
response format: bogus")` raised at line 306 are raised inside the `try`
body, match neither `except ValueError` nor `except RuntimeError`, and
are swallowed by the blanket `except Exception` at line 312, which
replaces them with `HTTPException(500, "Internal server error")`. -/
theorem c1_validation_errors_surface_as_500 :
    transcriptionsEndpoint wQuiet 2 true 0 "whisper-1" none "json" (some "c")
        "us-ashburn-1" = some (Response.httpError 500 "Internal server error") ∧
    transcriptionsEndpoint wConnect 2 true 1 "whisper-1" none "bogus" (some "c")
        "us-ashburn-1" = some (Response.httpError 500 "Internal server error") := by
  decide

end OCIAudio
